import Mathlib

/-!
# Verification of the SLCSP calculator

A shallow embedding of `src/slcsp_calculator.py` (class `SLCSPCalculator`),
which computes the Second Lowest Cost Silver Plan rate for a list of target
ZIP codes from a plan catalog and a ZIP-to-rate-area mapping, together with
proofs and refutations of the specified properties.

Modelling conventions:
* pandas DataFrames become lists of records (row order preserved);
* `NaN` entries in the `second_lowest_rate` column become `Option.none`;
* plan rates are rationals (the decimal values the CSV cells denote);
* a Python exception becomes `Except.error`; every function that can raise
  returns `Except`;
* pandas `read_csv` column dtype inference is modelled by `loadColumn`:
  a column whose cells are all unsigned-integer literals is loaded as
  integers (dropping leading zeros); any other column stays as strings.
  We represent an integer-loaded cell by its canonical decimal rendering,
  which is exactly what `to_csv` later prints for it.
-/

/-- First-occurrence-kept distinct elements, with an accumulator of already
seen values.  Models pandas `Series.drop_duplicates` (default `keep='first'`)
and, through its length, `Series.nunique`. -/
def dropDupAux {α : Type} [DecidableEq α] (seen : List α) : List α → List α
  | [] => []
  | a :: l => if a ∈ seen then dropDupAux seen l else a :: dropDupAux (a :: seen) l

/-- The distinct values of a list, first occurrences kept (pandas
`drop_duplicates`). -/
def dropDuplicates {α : Type} [DecidableEq α] (l : List α) : List α :=
  dropDupAux [] l

/-- A row of the plans CSV: `state, rate_area, metal_level, rate`. -/
structure Plan where
  state : String
  rate_area : Nat
  metal_level : String
  rate : Rat
deriving DecidableEq

/-- A row of the zips CSV (the ZIP-to-rate-area mapping): the columns the
pipeline uses are `zipcode, state, rate_area`. -/
structure ZipRow where
  zipcode : String
  state : String
  rate_area : Nat
deriving DecidableEq

/-- A row of the slcsp (targets) CSV: `zipcode, rate`; `rate` is a rendered
string in the output (initially empty). -/
structure TargetRow where
  zipcode : String
  rate : String
deriving DecidableEq

/-- A row of `self.zipcode_data` after `merge_zip_and_rate`: the mapping row
plus the left-merged `second_lowest_rate` column (`none` models `NaN`). -/
structure ZipRateRow where
  zipcode : String
  state : String
  rate_area : Nat
  second_lowest_rate : Option Rat
deriving DecidableEq

/-- `filter_silver_plans`: keep the plan rows whose `metal_level` is exactly
`"Silver"`. -/
def filter_silver_plans (plans_data : List Plan) : List Plan :=
  plans_data.filter (fun p => p.metal_level == "Silver")

/-- `merge_data`: inner join of the mapping rows with the Silver plan rows on
`('state', 'rate_area')`, in left-row-major order as pandas produces it. -/
def merge_data (zipcode_data : List ZipRow) (silver_plans : List Plan) :
    List (ZipRow × Plan) :=
  zipcode_data.flatMap (fun z =>
    (silver_plans.filter (fun p => p.state == z.state && p.rate_area == z.rate_area)).map
      (fun p => (z, p)))

/-- The `groupby(['state', 'rate_area'])` key of a joined row. -/
def groupKey (zp : ZipRow × Plan) : String × Nat :=
  (zp.2.state, zp.2.rate_area)

/-- The `rate` column of one `groupby(['state', 'rate_area'])` group of the
joined relation. -/
def groupRates (merged_data : List (ZipRow × Plan)) (k : String × Nat) : List Rat :=
  (merged_data.filter (fun zp => groupKey zp == k)).map (fun zp => zp.2.rate)

/-- `get_second_lowest_rate`: drop duplicate rates; if more than one distinct
rate remains, the second smallest (`nsmallest(2).values[1]`, i.e. index 1 of
the ascending sort), else `None`. -/
def get_second_lowest_rate (rates : List Rat) : Option Rat :=
  let unique_rates := dropDuplicates rates
  if 1 < unique_rates.length then (List.insertionSort (· ≤ ·) unique_rates)[1]? else none

/-- `calculate_second_lowest_rates`: per `(state, rate_area)` group of the
joined relation, the result of `get_second_lowest_rate` on the group's rates
(the `second_lowest_rates` frame, as a keyed association list). -/
def calculate_second_lowest_rates (merged_data : List (ZipRow × Plan)) :
    List ((String × Nat) × Option Rat) :=
  (dropDuplicates (merged_data.map groupKey)).map
    (fun k => (k, get_second_lowest_rate (groupRates merged_data k)))

/-- Key lookup in the `second_lowest_rates` frame; an absent key behaves like
the `NaN` a left merge produces for it. -/
def lookupRate (second_lowest_rates : List ((String × Nat) × Option Rat))
    (k : String × Nat) : Option Rat :=
  match second_lowest_rates with
  | [] => none
  | e :: rest => if e.1 = k then e.2 else lookupRate rest k

/-- `merge_zip_and_rate`: left merge of the mapping rows with
`second_lowest_rates` on `('state', 'rate_area')`; rows whose key is absent
get `NaN` (`none`). -/
def merge_zip_and_rate (zipcode_data : List ZipRow)
    (second_lowest_rates : List ((String × Nat) × Option Rat)) : List ZipRateRow :=
  zipcode_data.map (fun z =>
    ⟨z.zipcode, z.state, z.rate_area, lookupRate second_lowest_rates (z.state, z.rate_area)⟩)

/-- `get_rate`: select the merged mapping rows of the given zipcode; if they
span more than one distinct `rate_area` value (note: the number alone, not
the `(state, rate_area)` pair) or any has `NaN` in `second_lowest_rate`,
return `''` (`.ok none`); otherwise return `.values[0]` of the
`second_lowest_rate` column, which raises `IndexError` when no row matched. -/
def get_rate (zipcode_data : List ZipRateRow) (zipcode : String) :
    Except String (Option Rat) :=
  let rows := zipcode_data.filter (fun r => r.zipcode == zipcode)
  if 1 < (dropDuplicates (rows.map (fun r => r.rate_area))).length
      ∨ rows.any (fun r => r.second_lowest_rate.isNone) = true then
    .ok none
  else
    match rows with
    | [] => .error "IndexError"
    | r :: _ => .ok r.second_lowest_rate

/-- Round-half-to-even of `100 * num / den` in pure integer arithmetic: the
cent count that Python's fixed-point format `f"{rate:.2f}"` renders for the
rational value `num / den`. -/
def centsOf (num : Int) (den : Nat) : Int :=
  let a : Int := 100 * num
  let b : Int := (den : Int)
  let n : Int := a.fdiv b
  let r : Int := a - n * b
  if 2 * r < b then n
  else if b < 2 * r then n + 1
  else if n % 2 = 0 then n else n + 1

/-- Render a nonnegative cent count as a fixed two-decimal numeral. -/
def format2cents (n : Nat) : String :=
  toString (n / 100) ++ "." ++
    String.mk [Nat.digitChar (n % 100 / 10), Nat.digitChar (n % 100 % 10)]

/-- `f"{rate:.2f}"`: fixed-point rendering of a rational with exactly two
digits after the decimal point. -/
def format2 (q : Rat) : String :=
  let c := centsOf q.num q.den
  if c < 0 then "-" ++ format2cents c.natAbs else format2cents c.toNat

/-- The formatting lambda of `determine_rate`: `''` stays `''`, a resolved
rate is rendered with `f"{rate:.2f}"`. -/
def formatRate : Option Rat → String
  | none => ""
  | some q => format2 q

/-- `determine_rate`: set each target row's `rate` to the rendered result of
`get_rate` on its zipcode, in target row order.  The two `Series.apply`
passes of the source (resolve, then format) are fused; an exception in
`get_rate` aborts the whole assignment, exactly as `Series.apply` does. -/
def determine_rate (zipcode_data : List ZipRateRow) :
    List TargetRow → Except String (List TargetRow)
  | [] => .ok []
  | t :: ts =>
    match get_rate zipcode_data t.zipcode with
    | .error e => .error e
    | .ok r =>
      match determine_rate zipcode_data ts with
      | .error e => .error e
      | .ok rest => .ok (⟨t.zipcode, formatRate r⟩ :: rest)

/-- The three loaded relations held by an `SLCSPCalculator` instance when
`calculate_slcsp` starts. -/
structure CalcState where
  plans_data : List Plan
  zipcode_data : List ZipRow
  slcsp_data : List TargetRow
deriving DecidableEq

/-- The instance's relations after `calculate_slcsp` returns:
`zipcode_data` has been reassigned to the left-merged frame and
`slcsp_data`'s `rate` column has been filled in. -/
structure CalcResult where
  plans_data : List Plan
  zipcode_data : List ZipRateRow
  slcsp_data : List TargetRow
deriving DecidableEq

/-- `calculate_slcsp`: the five pipeline stages in source order. -/
def calculate_slcsp (s : CalcState) : Except String CalcResult :=
  let silver_plans := filter_silver_plans s.plans_data
  let merged_data := merge_data s.zipcode_data silver_plans
  let second_lowest_rates := calculate_second_lowest_rates merged_data
  let zipcode_data := merge_zip_and_rate s.zipcode_data second_lowest_rates
  match determine_rate zipcode_data s.slcsp_data with
  | .ok slcsp => .ok ⟨s.plans_data, zipcode_data, slcsp⟩
  | .error e => .error e

/-- `print_slcsp`: `self.slcsp_data.to_csv(index=False)` — header row then one
line per target row, in order. -/
def print_slcsp (slcsp_data : List TargetRow) : String :=
  "zipcode,rate\n" ++ String.join (slcsp_data.map (fun t => t.zipcode ++ "," ++ t.rate ++ "\n"))

/-- Is the cell an unsigned-integer literal (what pandas parses as `int64`)? -/
def isIntLiteral (s : String) : Bool :=
  s.length > 0 && s.toList.all Char.isDigit

/-- Numeric value of a digit string. -/
def natOfDigits (s : String) : Nat :=
  s.toList.foldl (fun n c => 10 * n + (c.toNat - 48)) 0

/-- `pd.read_csv` column dtype inference, as used by `__init__` (no `dtype=`
argument): a column whose cells are all integer literals is loaded as `int64`
— each cell is replaced by the canonical rendering of its numeric value,
dropping leading zeros; any other column is kept as strings verbatim. -/
def loadColumn (col : List String) : List String :=
  if col.all isIntLiteral then col.map (fun s => toString (natOfDigits s)) else col

/-- A parsed CSV table: header names and row-major cells.  Used to model the
loader's (lack of) schema validation. -/
structure Table where
  header : List String
  rows : List (List String)
deriving DecidableEq

/-- `pd.read_csv` on a well-formed CSV table: it performs no schema
validation whatsoever — no required-column check and no per-field numeric
check (unparseable "numeric" cells simply load as strings, see
`loadColumn`) — so loading always succeeds. -/
def read_csv (t : Table) : Except String Table :=
  .ok t

/-- Index of a column name in a header. -/
def colIdx : List String → String → Option Nat
  | [], _ => none
  | h :: rest, c => if h = c then some 0 else (colIdx rest c).map (· + 1)

/-- `df[c]`: column selection, raising `KeyError` when the column is absent. -/
def getColumn (t : Table) (c : String) : Except String (List String) :=
  match colIdx t.header c with
  | none => .error "KeyError"
  | some i => .ok (t.rows.map (fun row => row.getD i ""))

/-- `filter_silver_plans` on an untyped loaded table:
`plans_data[plans_data['metal_level'] == 'Silver']` — selecting the
`metal_level` column raises `KeyError` if it is missing; this is the first
pipeline stage to touch the plans columns. -/
def filterSilverT (t : Table) : Except String Table :=
  match getColumn t "metal_level" with
  | .error e => .error e
  | .ok col =>
    .ok ⟨t.header, ((t.rows.zip col).filter (fun rc => rc.2 == "Silver")).map (fun rc => rc.1)⟩

/-- The pipeline prefix producing the merged per-ZIP frame that `get_rate`
reads: stages 1–4 of `calculate_slcsp`. -/
def pipelineZipRates (plans_data : List Plan) (zipcode_data : List ZipRow) :
    List ZipRateRow :=
  merge_zip_and_rate zipcode_data
    (calculate_second_lowest_rates (merge_data zipcode_data (filter_silver_plans plans_data)))

/-- The raw `zipcode` column of the mapping CSV in the end-to-end scenario,
as the loader's dtype inference leaves it. -/
def scenarioZipColumn : List String :=
  loadColumn ["00001", "00002", "00003", "00003"]

/-- The raw `zipcode` column of the targets CSV in the end-to-end scenario,
as the loader's dtype inference leaves it. -/
def scenarioTargetColumn : List String :=
  loadColumn ["00001", "00002", "00003"]

/-- The plan catalog of the end-to-end scenario. -/
def scenarioPlans : List Plan :=
  [⟨"AA", 1, "Silver", 100⟩, ⟨"AA", 1, "Silver", 150⟩,
   ⟨"AA", 1, "Silver", 150⟩, ⟨"AA", 2, "Silver", 90⟩]

/-- The loaded mapping relation of the end-to-end scenario: the loaded
zipcode column paired with the `(state, rate_area)` columns. -/
def scenarioZips : List ZipRow :=
  (scenarioZipColumn.zip [("AA", 1), ("AA", 2), ("AA", 1), ("AA", 2)]).map
    (fun p => ⟨p.1, p.2.1, p.2.2⟩)

/-- The loaded target relation of the end-to-end scenario (empty rate
column). -/
def scenarioTargets : List TargetRow :=
  scenarioTargetColumn.map (fun z => ⟨z, ""⟩)

/-- The loaded calculator state of the end-to-end scenario. -/
def scenarioState : CalcState :=
  ⟨scenarioPlans, scenarioZips, scenarioTargets⟩

/-! ## Helper lemmas about the embedded operations -/

theorem mem_dropDupAux {α : Type} [DecidableEq α] :
    ∀ (seen l : List α) (b : α), b ∈ dropDupAux seen l ↔ b ∈ l ∧ b ∉ seen := by
  intro seen l
  induction l generalizing seen with
  | nil => intro b; simp [dropDupAux]
  | cons a l ih =>
    intro b
    by_cases ha : a ∈ seen
    · simp only [dropDupAux, if_pos ha, ih, List.mem_cons]
      constructor
      · exact fun h => ⟨Or.inr h.1, h.2⟩
      · rintro ⟨h1 | h1, h2⟩
        · exact absurd (h1 ▸ ha) h2
        · exact ⟨h1, h2⟩
    · simp only [dropDupAux, if_neg ha, List.mem_cons, ih]
      by_cases hb : b = a
      · subst hb; simp [ha]
      · simp [hb]

theorem mem_dropDuplicates {α : Type} [DecidableEq α] (l : List α) (b : α) :
    b ∈ dropDuplicates l ↔ b ∈ l := by
  simp [dropDuplicates, mem_dropDupAux]

theorem nodup_dropDupAux {α : Type} [DecidableEq α] :
    ∀ (seen l : List α), (dropDupAux seen l).Nodup := by
  intro seen l
  induction l generalizing seen with
  | nil => simp [dropDupAux]
  | cons a l ih =>
    by_cases ha : a ∈ seen
    · simpa [dropDupAux, if_pos ha] using ih seen
    · rw [dropDupAux, if_neg ha]
      refine List.nodup_cons.mpr ⟨?_, ih _⟩
      rw [mem_dropDupAux]
      rintro ⟨-, h2⟩
      exact h2 (List.mem_cons_self a seen)

theorem nodup_dropDuplicates {α : Type} [DecidableEq α] (l : List α) :
    (dropDuplicates l).Nodup :=
  nodup_dropDupAux [] l

theorem toFinset_dropDuplicates {α : Type} [DecidableEq α] (l : List α) :
    (dropDuplicates l).toFinset = l.toFinset := by
  ext b
  simp [List.mem_toFinset, mem_dropDuplicates]

theorem length_dropDuplicates {α : Type} [DecidableEq α] (l : List α) :
    (dropDuplicates l).length = l.toFinset.card := by
  rw [← toFinset_dropDuplicates, List.toFinset_card_of_nodup (nodup_dropDuplicates l)]

theorem insertionSort_dropDuplicates (l : List Rat) :
    List.insertionSort (· ≤ ·) (dropDuplicates l) = l.toFinset.sort (· ≤ ·) := by
  apply List.eq_of_perm_of_sorted ?_ (List.sorted_insertionSort _ _) (Finset.sort_sorted _ _)
  refine (List.perm_insertionSort _ _).trans ?_
  apply List.perm_of_nodup_nodup_toFinset_eq (nodup_dropDuplicates l) (Finset.sort_nodup _ _)
  rw [toFinset_dropDuplicates, Finset.sort_toFinset]

theorem get_second_lowest_rate_eq_sort (l : List Rat) (h : 2 ≤ l.toFinset.card) :
    get_second_lowest_rate l = (l.toFinset.sort (· ≤ ·))[1]? := by
  have hlen : 1 < (dropDuplicates l).length := by rw [length_dropDuplicates]; omega
  simp only [get_second_lowest_rate, if_pos hlen, insertionSort_dropDuplicates]

theorem get_second_lowest_rate_congr (l₁ l₂ : List Rat) (h : l₁.toFinset = l₂.toFinset) :
    get_second_lowest_rate l₁ = get_second_lowest_rate l₂ := by
  by_cases hc : 1 < l₁.toFinset.card
  · rw [get_second_lowest_rate_eq_sort l₁ (by omega),
      get_second_lowest_rate_eq_sort l₂ (by rw [← h]; omega), h]
  · have h1 : ¬ 1 < (dropDuplicates l₁).length := by rw [length_dropDuplicates]; omega
    have h2 : ¬ 1 < (dropDuplicates l₂).length := by rw [length_dropDuplicates, ← h]; omega
    simp only [get_second_lowest_rate, if_neg h1, if_neg h2]

theorem get_second_lowest_rate_single (l : List Rat) (h : l.toFinset.card ≤ 1) :
    get_second_lowest_rate l = none := by
  have hlen : ¬ 1 < (dropDuplicates l).length := by rw [length_dropDuplicates]; omega
  simp only [get_second_lowest_rate, if_neg hlen]

theorem lookupRate_map_self (f : String × Nat → Option Rat) :
    ∀ (ks : List (String × Nat)) (k : String × Nat),
      lookupRate (ks.map (fun x => (x, f x))) k = if k ∈ ks then f k else none := by
  intro ks
  induction ks with
  | nil => intro k; simp [lookupRate]
  | cons a ks ih =>
    intro k
    by_cases hak : a = k
    · subst hak; simp [lookupRate]
    · have hka : ¬ k = a := fun hk => hak hk.symm
      simp [lookupRate, hak, hka, ih]

theorem lookupRate_calculate (merged_data : List (ZipRow × Plan)) (k : String × Nat) :
    lookupRate (calculate_second_lowest_rates merged_data) k =
      if k ∈ merged_data.map groupKey then get_second_lowest_rate (groupRates merged_data k)
      else none := by
  have h := lookupRate_map_self (fun j => get_second_lowest_rate (groupRates merged_data j))
    (dropDuplicates (merged_data.map groupKey)) k
  rw [calculate_second_lowest_rates, h]
  exact if_congr (mem_dropDuplicates _ _) rfl rfl

theorem determine_rate_map_zipcode (zipcode_data : List ZipRateRow) :
    ∀ (targets out : List TargetRow), determine_rate zipcode_data targets = .ok out →
      out.map TargetRow.zipcode = targets.map TargetRow.zipcode := by
  intro targets
  induction targets with
  | nil =>
    intro out h
    simp only [determine_rate, Except.ok.injEq] at h
    rw [← h]
  | cons t ts ih =>
    intro out h
    cases hr : get_rate zipcode_data t.zipcode with
    | error e => simp [determine_rate, hr] at h
    | ok r =>
      cases hrest : determine_rate zipcode_data ts with
      | error e => simp [determine_rate, hr, hrest] at h
      | ok rest =>
        simp only [determine_rate, hr, hrest, Except.ok.injEq] at h
        rw [← h]
        simp [ih rest hrest]

theorem colIdx_eq_none (c : String) :
    ∀ (hs : List String), c ∉ hs → colIdx hs c = none := by
  intro hs
  induction hs with
  | nil => intro _; rfl
  | cons a rest ih =>
    intro h
    have hac : ¬ a = c := fun hac => h (by rw [← hac]; exact List.mem_cons_self a rest)
    simp [colIdx, hac, ih (fun hm => h (List.mem_cons_of_mem a hm))]

/-! ## Claim theorems -/

/-- C1: the claim fails on the code.  The ZIP `"Z"` appears in the mapping
with the two distinct `(state, rate_area)` pairs `("AA", 1)` and
`("BB", 1)` — the same rate-area number in two different states — yet
resolution is not blank: `get_rate` counts distinct `rate_area` numbers
only, sees a single number `1`, and returns the second-lowest rate `20` of
the first matching row's area. -/
theorem c1_code_eval :
    dropDuplicates (([⟨"Z", "AA", 1⟩, ⟨"Z", "BB", 1⟩] : List ZipRow).map
        (fun r => (r.state, r.rate_area))) = [("AA", 1), ("BB", 1)] ∧
    get_rate (pipelineZipRates
        [⟨"AA", 1, "Silver", 10⟩, ⟨"AA", 1, "Silver", 20⟩,
         ⟨"BB", 1, "Silver", 30⟩, ⟨"BB", 1, "Silver", 40⟩]
        [⟨"Z", "AA", 1⟩, ⟨"Z", "BB", 1⟩]) "Z" = .ok (some 20) :=
  ⟨rfl, rfl⟩

/-- C2: the claim fails on the code.  With a target ZIP `"99999"` that does
not appear in the mapping at all, the resolution stage raises `IndexError`
(`.values[0]` on an empty selection) instead of producing a blank rate, so
the post-load pipeline is not total. -/
theorem c2_code_eval :
    calculate_slcsp ⟨[⟨"AA", 1, "Silver", 100⟩, ⟨"AA", 1, "Silver", 200⟩],
        [⟨"1", "AA", 1⟩], [⟨"99999", ""⟩]⟩ = .error "IndexError" :=
  rfl

/-- C5: the claim fails on the code.  The loader's dtype inference parses an
all-numeric zipcode column as integers, so the ZIP `"00001"` is loaded as
`1` and its leading zeros are lost. -/
theorem c5_code_eval :
    loadColumn ["00001"] = ["1"] ∧ ("1" : String) ≠ "00001" :=
  ⟨rfl, by decide⟩

/-- C6: the rates of the end-to-end scenario come out as the claim expects
(`150.00`, blank, blank, in target order), but the zipcodes do not: the
loader parses the all-numeric zipcode columns as integers, so the output
rows carry `1`, `2`, `3` instead of `00001`, `00002`, `00003`. -/
theorem c6_code_eval :
    (calculate_slcsp scenarioState).map (fun s => print_slcsp s.slcsp_data) =
      .ok "zipcode,rate\n1,150.00\n2,\n3,\n" :=
  rfl

/-- C7 counterexample: a targets file containing the unmapped ZIP `"9"`
makes the resolution stage raise `IndexError`, so this run produces no
output row at all for its target and the claim's unconditional
row-per-target guarantee fails. -/
theorem c7_counterexample :
    determine_rate (pipelineZipRates [⟨"AA", 1, "Silver", 100⟩, ⟨"AA", 1, "Silver", 200⟩]
      [⟨"1", "AA", 1⟩]) [⟨"9", ""⟩] = .error "IndexError" :=
  rfl

/-- C3: for every `(state, rate_area)` group of the joined relation whose
rows carry at least 2 distinct rate values, the aggregator's entry for that
group equals the element at index 1 of the ascending-sorted list of the
group's distinct rates, and it agrees with `get_second_lowest_rate` on any
rate list with the same distinct values — the result is independent of the
group's row order and of how many duplicate rows carry each value. -/
theorem c3_second_lowest_is_second_smallest_distinct
    (merged_data : List (ZipRow × Plan)) (k : String × Nat) (l : List Rat)
    (hcard : 2 ≤ (groupRates merged_data k).toFinset.card)
    (hl : (groupRates merged_data k).toFinset = l.toFinset) :
    lookupRate (calculate_second_lowest_rates merged_data) k =
      ((groupRates merged_data k).toFinset.sort (· ≤ ·))[1]? ∧
    lookupRate (calculate_second_lowest_rates merged_data) k =
      get_second_lowest_rate l := by
  have hne : groupRates merged_data k ≠ [] := by
    intro h0
    rw [h0] at hcard
    simp at hcard
  have hmem : k ∈ merged_data.map groupKey := by
    obtain ⟨r, hr⟩ := List.exists_mem_of_ne_nil _ hne
    rw [groupRates] at hr
    obtain ⟨zp, hzpf, -⟩ := List.mem_map.mp hr
    have h2 := List.mem_filter.mp hzpf
    exact List.mem_map.mpr ⟨zp, h2.1, eq_of_beq h2.2⟩
  rw [lookupRate_calculate, if_pos hmem]
  exact ⟨get_second_lowest_rate_eq_sort _ hcard, get_second_lowest_rate_congr _ _ hl⟩

/-- C3 witness: a concrete group with rate column `[150, 100, 150]` (two
distinct values, one duplicated): the aggregator's entry is the second
element of the sorted distinct list and agrees with `get_second_lowest_rate`
on the reordered, deduplicated column `[100, 150]`. -/
theorem c3_witness :
    lookupRate (calculate_second_lowest_rates (merge_data [⟨"5", "AA", 1⟩]
        (filter_silver_plans [⟨"AA", 1, "Silver", 150⟩, ⟨"AA", 1, "Silver", 100⟩,
          ⟨"AA", 1, "Silver", 150⟩]))) ("AA", 1) =
      ((groupRates (merge_data [⟨"5", "AA", 1⟩]
        (filter_silver_plans [⟨"AA", 1, "Silver", 150⟩, ⟨"AA", 1, "Silver", 100⟩,
          ⟨"AA", 1, "Silver", 150⟩])) ("AA", 1)).toFinset.sort (· ≤ ·))[1]? ∧
    lookupRate (calculate_second_lowest_rates (merge_data [⟨"5", "AA", 1⟩]
        (filter_silver_plans [⟨"AA", 1, "Silver", 150⟩, ⟨"AA", 1, "Silver", 100⟩,
          ⟨"AA", 1, "Silver", 150⟩]))) ("AA", 1) =
      get_second_lowest_rate [100, 150] :=
  c3_second_lowest_is_second_smallest_distinct _ ("AA", 1) [100, 150]
    (by decide) (by decide)

/-- C4: if the Silver rates joined into rate area `(st, ra)` have at most
one distinct value — exactly one distinct rate, or no joined Silver plans at
all — then the aggregator has no defined entry for that key, and any target
ZIP that appears in the mapping and all of whose mapping rows carry that key
resolves to the blank rate. -/
theorem c4_undefined_group_resolves_blank (plans_data : List Plan)
    (zipcode_data : List ZipRow) (st : String) (ra : Nat) (z : String)
    (hgroup : (groupRates (merge_data zipcode_data (filter_silver_plans plans_data))
        (st, ra)).toFinset.card ≤ 1)
    (hz : ∀ r ∈ zipcode_data, r.zipcode = z → r.state = st ∧ r.rate_area = ra)
    (hzmem : ∃ r ∈ zipcode_data, r.zipcode = z) :
    lookupRate (calculate_second_lowest_rates
        (merge_data zipcode_data (filter_silver_plans plans_data))) (st, ra) = none ∧
    get_rate (pipelineZipRates plans_data zipcode_data) z = .ok none := by
  have h1 : lookupRate (calculate_second_lowest_rates
      (merge_data zipcode_data (filter_silver_plans plans_data))) (st, ra) = none := by
    rw [lookupRate_calculate]
    by_cases hm : (st, ra) ∈
        (merge_data zipcode_data (filter_silver_plans plans_data)).map groupKey
    · rw [if_pos hm]
      exact get_second_lowest_rate_single _ hgroup
    · rw [if_neg hm]
  refine ⟨h1, ?_⟩
  obtain ⟨r, hrm, hrz⟩ := hzmem
  have hrow : (⟨r.zipcode, r.state, r.rate_area,
      lookupRate (calculate_second_lowest_rates (merge_data zipcode_data
        (filter_silver_plans plans_data))) (r.state, r.rate_area)⟩ : ZipRateRow) ∈
      (pipelineZipRates plans_data zipcode_data).filter (fun x => x.zipcode == z) := by
    rw [pipelineZipRates, merge_zip_and_rate]
    apply List.mem_filter.mpr
    refine ⟨List.mem_map.mpr ⟨r, hrm, rfl⟩, ?_⟩
    simp [hrz]
  have hnone : lookupRate (calculate_second_lowest_rates (merge_data zipcode_data
      (filter_silver_plans plans_data))) (r.state, r.rate_area) = none := by
    obtain ⟨hs, ha⟩ := hz r hrm hrz
    rw [hs, ha, h1]
  have hany : ((pipelineZipRates plans_data zipcode_data).filter
      (fun x => x.zipcode == z)).any (fun x => x.second_lowest_rate.isNone) = true :=
    List.any_eq_true.mpr ⟨_, hrow, by simp [hnone]⟩
  have hcond : 1 < (dropDuplicates (((pipelineZipRates plans_data zipcode_data).filter
        (fun x => x.zipcode == z)).map (fun x => x.rate_area))).length
      ∨ ((pipelineZipRates plans_data zipcode_data).filter (fun x => x.zipcode == z)).any
          (fun x => x.second_lowest_rate.isNone) = true := Or.inr hany
  simp only [get_rate]
  rw [if_pos hcond]

/-- C4 witness: one Silver plan in `("AA", 1)` (a single distinct rate) and
the ZIP `"1"` mapped only to `("AA", 1)`: the aggregator entry is undefined
and the ZIP resolves blank. -/
theorem c4_witness :
    lookupRate (calculate_second_lowest_rates (merge_data [⟨"1", "AA", 1⟩]
        (filter_silver_plans [⟨"AA", 1, "Silver", 100⟩]))) ("AA", 1) = none ∧
    get_rate (pipelineZipRates [⟨"AA", 1, "Silver", 100⟩] [⟨"1", "AA", 1⟩]) "1" =
      .ok none :=
  c4_undefined_group_resolves_blank [⟨"AA", 1, "Silver", 100⟩] [⟨"1", "AA", 1⟩]
    "AA" 1 "1" (by decide) (by decide) (by decide)

/-- C7 (amended): whenever the resolution stage completes without raising an
exception, the output relation has exactly one row per target row, in the
target input's order, with the zipcode column preserved. -/
theorem c7_output_rows_match_targets (zipcode_data : List ZipRateRow)
    (targets out : List TargetRow)
    (h : determine_rate zipcode_data targets = .ok out) :
    out.length = targets.length ∧
    out.map TargetRow.zipcode = targets.map TargetRow.zipcode := by
  have hm := determine_rate_map_zipcode zipcode_data targets out h
  refine ⟨?_, hm⟩
  have hlen := congrArg List.length hm
  simpa using hlen

/-- C7 witness: a one-target run that completes, with the output row count,
order and zipcode column matching the target input. -/
theorem c7_witness :
    ([⟨"8", "200.00"⟩] : List TargetRow).length = ([⟨"8", ""⟩] : List TargetRow).length ∧
    ([⟨"8", "200.00"⟩] : List TargetRow).map TargetRow.zipcode =
      ([⟨"8", ""⟩] : List TargetRow).map TargetRow.zipcode :=
  c7_output_rows_match_targets
    (pipelineZipRates [⟨"AA", 1, "Silver", 100⟩, ⟨"AA", 1, "Silver", 200⟩]
      [⟨"8", "AA", 1⟩]) [⟨"8", ""⟩] [⟨"8", "200.00"⟩] rfl

theorem digitChar_isDigit (k : Nat) (h : k < 10) : (Nat.digitChar k).isDigit = true := by
  interval_cases k <;> decide

theorem centsOf_nonneg (num : Int) (den : Nat) (h : 0 ≤ num) : 0 ≤ centsOf num den := by
  have hn : 0 ≤ (100 * num).fdiv (den : Int) :=
    Int.fdiv_nonneg (by omega) (Int.natCast_nonneg den)
  simp only [centsOf]
  split_ifs <;> omega

/-- C8: every defined nonnegative rate is rendered as an integer part, a
decimal point and exactly two decimal digits; a rate of exactly `100`
renders as `"100.00"`; a rate with value `12.3` (numerator 123, denominator
10) renders as `"12.30"`; an undefined resolution is rendered as the empty
string. -/
theorem c8_formatting (r q : Rat) (hr : 0 ≤ r) (hqn : q.num = 123) (hqd : q.den = 10) :
    (∃ s t o, formatRate (some r) = s ++ "." ++ String.mk [t, o] ∧
      t.isDigit = true ∧ o.isDigit = true) ∧
    formatRate (some 100) = "100.00" ∧
    formatRate (some q) = "12.30" ∧
    formatRate none = "" := by
  refine ⟨?_, rfl, ?_, rfl⟩
  · have hc : 0 ≤ centsOf r.num r.den := centsOf_nonneg _ _ (Rat.num_nonneg.mpr hr)
    refine ⟨toString ((centsOf r.num r.den).toNat / 100),
      Nat.digitChar ((centsOf r.num r.den).toNat % 100 / 10),
      Nat.digitChar ((centsOf r.num r.den).toNat % 100 % 10), ?_, ?_, ?_⟩
    · simp only [formatRate, format2, if_neg (not_lt.mpr hc), format2cents]
    · exact digitChar_isDigit _ (by omega)
    · exact digitChar_isDigit _ (by omega)
  · simp only [formatRate, format2]
    rw [hqn, hqd]
    decide

/-- C8 witness: the rendering facts at the concrete rates `100` and
`123/10`. -/
theorem c8_witness :
    (∃ s t o, formatRate (some 100) = s ++ "." ++ String.mk [t, o] ∧
      t.isDigit = true ∧ o.isDigit = true) ∧
    formatRate (some 100) = "100.00" ∧
    formatRate (some (⟨123, 10, by decide, by decide⟩ : Rat)) = "12.30" ∧
    formatRate none = "" :=
  c8_formatting 100 ⟨123, 10, by decide, by decide⟩ (by decide) rfl rfl

/-- C9 counterexample: loading a plans table that lacks the required
`metal_level` column succeeds — the loader performs no validation and raises
no `MalformedInputError`-class failure — and the failure instead surfaces as
a `KeyError` in the downstream Silver-filter stage. -/
theorem c9_counterexample :
    read_csv ⟨["plan_id", "state"], [["p1", "AA"]]⟩ =
      .ok ⟨["plan_id", "state"], [["p1", "AA"]]⟩ ∧
    filterSilverT ⟨["plan_id", "state"], [["p1", "AA"]]⟩ = .error "KeyError" :=
  ⟨rfl, rfl⟩

/-- C9 (amended): the loader performs no input validation and cannot fail on
a well-formed table: `read_csv` always succeeds; a missing `metal_level`
column is reported as a `KeyError` only when the downstream Silver-filter
stage first selects it; and a column containing any non-integer-literal cell
is loaded as strings verbatim rather than rejected. -/
theorem c9_loader_performs_no_validation (t : Table) (col : List String)
    (hm : "metal_level" ∉ t.header) (hc : ¬ col.all isIntLiteral = true) :
    read_csv t = .ok t ∧
    filterSilverT t = .error "KeyError" ∧
    loadColumn col = col := by
  have hg : getColumn t "metal_level" = .error "KeyError" := by
    rw [getColumn, colIdx_eq_none _ _ hm]
  exact ⟨rfl, by simp [filterSilverT, hg], by simp [loadColumn, hc]⟩

/-- C9 witness: a header without `metal_level` and a column with a
non-numeric cell. -/
theorem c9_witness :
    read_csv ⟨["state"], [["AA"]]⟩ = .ok ⟨["state"], [["AA"]]⟩ ∧
    filterSilverT ⟨["state"], [["AA"]]⟩ = .error "KeyError" ∧
    loadColumn ["12x"] = ["12x"] :=
  c9_loader_performs_no_validation ⟨["state"], [["AA"]]⟩ ["12x"] (by decide) (by decide)

/-- C10: a completed run of `calculate_slcsp` leaves the plans relation
unchanged, and in the target relation only the rate column is written: the
zipcode column's values and the row order are identical before and after. -/
theorem c10_frame_effect (s : CalcState) (out : CalcResult)
    (h : calculate_slcsp s = .ok out) :
    out.plans_data = s.plans_data ∧
    out.slcsp_data.map TargetRow.zipcode = s.slcsp_data.map TargetRow.zipcode := by
  cases hd : determine_rate (merge_zip_and_rate s.zipcode_data
      (calculate_second_lowest_rates (merge_data s.zipcode_data
        (filter_silver_plans s.plans_data)))) s.slcsp_data with
  | error e => simp [calculate_slcsp, hd] at h
  | ok slcsp =>
    simp only [calculate_slcsp, hd, Except.ok.injEq] at h
    rw [← h]
    exact ⟨rfl, determine_rate_map_zipcode _ _ _ hd⟩

/-- C10 witness: a completed concrete run; the plans relation and the target
zipcode column are unchanged. -/
theorem c10_witness :
    (⟨[⟨"AA", 1, "Silver", 100⟩, ⟨"AA", 1, "Silver", 200⟩],
        [⟨"6", "AA", 1, some 200⟩], [⟨"6", "200.00"⟩]⟩ : CalcResult).plans_data =
      (⟨[⟨"AA", 1, "Silver", 100⟩, ⟨"AA", 1, "Silver", 200⟩],
        [⟨"6", "AA", 1⟩], [⟨"6", ""⟩]⟩ : CalcState).plans_data ∧
    (⟨[⟨"AA", 1, "Silver", 100⟩, ⟨"AA", 1, "Silver", 200⟩],
        [⟨"6", "AA", 1, some 200⟩], [⟨"6", "200.00"⟩]⟩ : CalcResult).slcsp_data.map
        TargetRow.zipcode =
      (⟨[⟨"AA", 1, "Silver", 100⟩, ⟨"AA", 1, "Silver", 200⟩],
        [⟨"6", "AA", 1⟩], [⟨"6", ""⟩]⟩ : CalcState).slcsp_data.map TargetRow.zipcode :=
  c10_frame_effect
    ⟨[⟨"AA", 1, "Silver", 100⟩, ⟨"AA", 1, "Silver", 200⟩], [⟨"6", "AA", 1⟩], [⟨"6", ""⟩]⟩
    ⟨[⟨"AA", 1, "Silver", 100⟩, ⟨"AA", 1, "Silver", 200⟩],
      [⟨"6", "AA", 1, some 200⟩], [⟨"6", "200.00"⟩]⟩ rfl
